import Mathlib

/-!
Shallow embedding of the telepingbot ping-correlation core
(src/main.rs, src/superbot.rs, src/api.rs).

Time is passed explicitly: where the Rust code calls
`chrono::Utc::now().timestamp()`, the Lean definitions take a `now : Int`
parameter.  The shared `Mutex<Vec<PingedBot>>` registry is modelled as a
`List PingedBot` threaded through the operations.  The external Telegram
client (`grammers_client::Client`) is modelled as a record of result
functions, and the side effects of `send_start` (the spy points of the
spec) are recorded in an explicit trace of events.
-/

namespace Telepingbot

/-- One probe record (src/main.rs, `struct PingedBot`): the probed bot's
Telegram id, the timestamp the probe was sent, and whether a response was
seen. -/
structure PingedBot where
  telegram_id : Nat
  ping_in : Int
  is_response : Bool
deriving DecidableEq, Repr

/-- `Default` derive of `PingedBot` in src/main.rs. -/
def PingedBot.default : PingedBot :=
  { telegram_id := 0, ping_in := 0, is_response := false }

/-- `PingedBot::new` (src/main.rs lines 86-92): a fresh unresolved record
stamped with the current time. -/
def PingedBot.new (now : Int) (telegram_id : Nat) : PingedBot :=
  { telegram_id := telegram_id, ping_in := now, is_response := false }

/-- `PingedBot::new_res` (src/main.rs lines 94-97): set `is_response`. -/
def PingedBot.new_res (b : PingedBot) : PingedBot :=
  { b with is_response := true }

/-- The shared registry `Mutex<Vec<PingedBot>>`. -/
abbrev Registry := List PingedBot

namespace PingList

/-- `PingList::clear_outdead` (src/main.rs lines 40-49): keep exactly the
records with `ping_in > now - 60`. -/
def clear_outdead (now : Int) (bots : Registry) : Registry :=
  bots.filter (fun b => decide (now - 60 < b.ping_in))

/-- `PingList::add_new` (src/main.rs lines 51-54): push a fresh record. -/
def add_new (now : Int) (telegram_id : Nat) (bots : Registry) : Registry :=
  bots ++ [PingedBot.new now telegram_id]

/-- `PingList::check` (src/main.rs lines 56-66): run `clear_outdead`, then
report whether any surviving record for `telegram_id` has responded.
Returns the answer together with the registry left behind by the sweep. -/
def check (now : Int) (telegram_id : Nat) (bots : Registry) : Bool × Registry :=
  let bots := clear_outdead now bots
  (bots.any (fun b => b.telegram_id == telegram_id && b.is_response), bots)

/-- `PingList::new_res` (src/main.rs lines 67-82): map over the registry,
flagging every record of `telegram_id` as responded. -/
def new_res (telegram_id : Nat) (bots : Registry) : Registry :=
  bots.map (fun b => if b.telegram_id == telegram_id then b.new_res else b)

end PingList

/-- The four registry operations, as a step alphabet (spec names on the
left; `is_resolved` also commits the eviction sweep's state). -/
inductive RegOp where
  | evict (now : Int)
  | register (now : Int) (telegram_id : Nat)
  | isResolved (now : Int) (telegram_id : Nat)
  | markResolved (telegram_id : Nat)
deriving DecidableEq, Repr

/-- State effect of one registry operation. -/
def RegOp.apply : RegOp → Registry → Registry
  | .evict now, reg => PingList.clear_outdead now reg
  | .register now telegram_id, reg => PingList.add_new now telegram_id reg
  | .isResolved now telegram_id, reg => (PingList.check now telegram_id reg).2
  | .markResolved telegram_id, reg => PingList.new_res telegram_id reg

/-- Observable effects of `send_start` on the external Telegram client
(the spy points of the spec's testable properties): a username-resolution
attempt, a registry registration, a `/start` message dispatch, and the
fixed sleep. -/
inductive TraceEvent where
  | resolveAttempt (username : String)
  | registered (telegram_id : Nat)
  | sendAttempt (telegram_id : Nat)
  | slept (secs : Nat)
deriving DecidableEq, Repr

/-- Recognise a probe-dispatch event (the spy on `send_message`). -/
def TraceEvent.isSendAttempt : TraceEvent → Bool
  | .sendAttempt _ => true
  | _ => false

/-- The external Telegram client at its boundary: `resolve_username`
yields an error, no chat, or a chat id; `send_message` yields an error or
unit. -/
structure TgClient where
  resolve : String → Except String (Option Nat)
  send : Nat → Except String Unit

/-- `send_start` (src/superbot.rs lines 98-109): resolve the username;
on a chat, register its id, send `/start`, sleep 2 seconds and return the
id.  `?` propagates resolution and delivery errors; an unresolvable
username is an error of its own.  Returns the outcome, the registry it
leaves behind, and the event trace. -/
def send_start (client : TgClient) (now : Int) (bot_username : String)
    (reg : Registry) : Except String Nat × Registry × List TraceEvent :=
  match client.resolve bot_username with
  | .error e => (.error e, reg, [.resolveAttempt bot_username])
  | .ok none =>
      (.error ("Invalid username `" ++ bot_username ++ "`"), reg,
        [.resolveAttempt bot_username])
  | .ok (some chat_id) =>
      let reg1 := PingList.add_new now chat_id reg
      match client.send chat_id with
      | .error e =>
          (.error e, reg1,
            [.resolveAttempt bot_username, .registered chat_id, .sendAttempt chat_id])
      | .ok _ =>
          (.ok chat_id, reg1,
            [.resolveAttempt bot_username, .registered chat_id,
              .sendAttempt chat_id, .slept 2])

/-- `update_handler` (src/superbot.rs lines 74-80): a new-message update
with an identifiable sender marks that sender resolved; every other update
is dropped.  The update is modelled as `Option (Option Nat)`: a
new-message update carrying an optional sender id, or some other update. -/
def update_handler (upd : Option (Option Nat)) (reg : Registry) : Registry :=
  match upd with
  | some (some sender_id) => PingList.new_res sender_id reg
  | _ => reg

/-- `StatusCode::is_success`: 2xx. -/
def isSuccess (status_code : Nat) : Bool :=
  200 ≤ status_code && status_code < 300

/-- `MessageSchema` (src/api.rs lines 33-39).  `message` and `status` are
the JSON body; `status_code` is the serde-skipped HTTP status. -/
structure MessageSchema where
  message : String
  status : Bool
  status_code : Nat
deriving DecidableEq, Repr

/-- `MessageSchema::new` (src/api.rs lines 64-70): `200 OK`, status true. -/
def MessageSchema.new (message : String) : MessageSchema :=
  { message := message, status := true, status_code := 200 }

/-- `MessageSchema::code` (src/api.rs lines 73-77): install a status code
and recompute `status` as its success bit. -/
def MessageSchema.code (m : MessageSchema) (status_code : Nat) : MessageSchema :=
  { m with status := isSuccess status_code, status_code := status_code }

/-- Rust `str::to_lowercase` (on the ASCII range), written over the
string's character list so that it evaluates. -/
def lower (s : String) : String := ⟨s.data.map Char.toLower⟩

/-- Rust `str::trim_start_matches('@')`: drop every leading `@`. -/
def stripAt (s : String) : String := ⟨s.data.dropWhile (fun c => c == '@')⟩

/-- Rust `str::trim`: drop leading and trailing whitespace. -/
def trimStr (s : String) : String :=
  ⟨((s.data.dropWhile Char.isWhitespace).reverse.dropWhile
      Char.isWhitespace).reverse⟩

/-- `AppState` (src/api.rs lines 24-31), minus the client handle. -/
structure AppState where
  bots : List String
  tokens : List String
deriving DecidableEq, Repr

/-- `AppState::new` (src/api.rs lines 43-59).  `sha256::digest` is the
external hash, passed in as `hash`; each configured bot username is
stripped of leading `@`s, trimmed and lowercased, each token trimmed and
hashed. -/
def AppState.new (hash : String → String) (bots tokens : List String) : AppState :=
  { bots := bots.map (fun b => lower (trimStr (stripAt b)))
    tokens := tokens.map (fun t => hash (trimStr t)) }

/-- The `ping` handler (src/api.rs lines 85-106).  `param` is the
`bot_username` path parameter; `now` the time `send_start` runs, so the
post-sleep `check` runs at `now + 2`.  Returns the response, the registry
left behind, and the client event trace. -/
def ping (state : AppState) (client : TgClient) (now : Int) (param : String)
    (reg : Registry) : MessageSchema × Registry × List TraceEvent :=
  if state.bots.contains (lower param) then
    match send_start client now (lower param) reg with
    | (.ok telegram_id, reg1, evs) =>
        if (PingList.check (now + 2) telegram_id reg1).1 then
          (MessageSchema.new "Alive", (PingList.check (now + 2) telegram_id reg1).2, evs)
        else
          ((MessageSchema.new "No response from the bot").code 404,
            (PingList.check (now + 2) telegram_id reg1).2, evs)
    | (.error _, reg1, evs) =>
        ((MessageSchema.new "Cant send to the bot").code 500, reg1, evs)
  else
    ((MessageSchema.new "Is not authorized to check the status of this bot").code 400,
      reg, [])

/-- Result of the `auth` middleware: pass through, or reject with a JSON
response. -/
inductive AuthOutcome where
  | authorized
  | rejected (msg : MessageSchema)
deriving DecidableEq, Repr

/-- The `auth` middleware (src/api.rs lines 131-161).  The `Authorization`
header is `none` when absent, `some none` when present but not a valid
string (`to_str` fails), and `some (some token)` otherwise. -/
def auth (hash : String → String) (state : AppState)
    (header : Option (Option String)) : AuthOutcome :=
  match header with
  | some (some token) =>
      if state.tokens.contains (hash (trimStr token)) then .authorized
      else .rejected ((MessageSchema.new "Unauthorized").code 403)
  | some none =>
      .rejected ((MessageSchema.new "Invalid token value").code 400)
  | none =>
      .rejected ((MessageSchema.new "Missing `Authorization` header").code 403)

/-- `handle404` catcher body (src/api.rs lines 109-117). -/
def handle404 : MessageSchema :=
  (MessageSchema.new "Not Found").code 404

/-- `handle_server_errors` catcher body (src/api.rs lines 120-128). -/
def handle_server_errors : MessageSchema :=
  (MessageSchema.new "Server Error").code 500

/-!  Theorems settling the claims. -/

/-- C2: `check` first runs the stale-eviction sweep and then answers true
iff some surviving record with that id has responded; the registry it
leaves behind is exactly the swept one.  In particular registering agent 7
at time 0 and checking 61 seconds later answers false even when the
record had been marked resolved in between. -/
theorem check_evicts_then_scans (now : Int) (telegram_id : Nat) (reg : Registry) :
    (PingList.check now telegram_id reg).2 = PingList.clear_outdead now reg ∧
    ((PingList.check now telegram_id reg).1 = true ↔
      ∃ b ∈ PingList.clear_outdead now reg,
        b.telegram_id = telegram_id ∧ b.is_response = true) ∧
    (PingList.check 61 7 (PingList.new_res 7 (PingList.add_new 0 7 []))).1 = false := by
  refine ⟨rfl, ?_, by decide⟩
  simp [PingList.check, List.any_eq_true]

/-- C3: `new_res` marks every matching record responded, is idempotent,
and is a silent no-op when no record matches; registering agent 42 and
marking it resolved makes `check` answer true at any instant inside the
60-second staleness window. -/
theorem new_res_marks_matches (now d : Int) (telegram_id : Nat) (reg : Registry) :
    (∀ b ∈ PingList.new_res telegram_id reg,
        b.telegram_id = telegram_id → b.is_response = true) ∧
    PingList.new_res telegram_id (PingList.new_res telegram_id reg) =
      PingList.new_res telegram_id reg ∧
    ((∀ b ∈ reg, b.telegram_id ≠ telegram_id) →
      PingList.new_res telegram_id reg = reg) ∧
    (0 ≤ d → d < 60 →
      (PingList.check (now + d) 42
        (PingList.new_res 42 (PingList.add_new now 42 []))).1 = true) := by
  refine ⟨?_, ?_, ?_, ?_⟩
  · intro b hb hid
    simp only [PingList.new_res, List.mem_map] at hb
    obtain ⟨a, _, rfl⟩ := hb
    by_cases h : a.telegram_id = telegram_id
    · simp [h, PingedBot.new_res]
    · simp only [beq_iff_eq, h, if_false] at hid
  · simp only [PingList.new_res, List.map_map]
    refine List.map_congr_left ?_
    intro a _
    by_cases h : a.telegram_id = telegram_id <;>
      simp [Function.comp, h, PingedBot.new_res]
  · intro h
    refine (List.map_congr_left ?_).trans (List.map_id reg)
    intro a ha
    simp [beq_iff_eq, h a ha]
  · intro h0 h60
    have hreg : PingList.new_res 42 (PingList.add_new now 42 []) =
        [⟨42, now, true⟩] := by
      simp [PingList.new_res, PingList.add_new, PingedBot.new, PingedBot.new_res]
    have hkeep : PingList.clear_outdead (now + d) [(⟨42, now, true⟩ : PingedBot)] =
        [⟨42, now, true⟩] := by
      refine List.filter_eq_self.mpr ?_
      intro b hb
      simp only [List.mem_singleton] at hb
      subst hb
      simp only [decide_eq_true_eq]
      omega
    simp [PingList.check, hreg, hkeep]

/-- C4: the eviction sweep removes every record strictly older than the
60-second threshold and keeps every record strictly younger; at the exact
boundary the sweep is deterministic — repeating it at the same instant
changes nothing — and it is a no-op when nothing is removable. -/
theorem clear_outdead_evicts_stale (now : Int) (reg : Registry) :
    (∀ b ∈ reg, 60 < now - b.ping_in → b ∉ PingList.clear_outdead now reg) ∧
    (∀ b ∈ reg, now - b.ping_in < 60 → b ∈ PingList.clear_outdead now reg) ∧
    PingList.clear_outdead now (PingList.clear_outdead now reg) =
      PingList.clear_outdead now reg ∧
    ((∀ b ∈ reg, now - b.ping_in < 60) → PingList.clear_outdead now reg = reg) := by
  refine ⟨?_, ?_, ?_, ?_⟩
  · intro b _ hage hmem
    have := (List.mem_filter.mp hmem).2
    simp only [decide_eq_true_eq] at this
    omega
  · intro b hb hage
    refine List.mem_filter.mpr ⟨hb, ?_⟩
    simp only [decide_eq_true_eq]
    omega
  · refine List.filter_eq_self.mpr ?_
    intro b hb
    exact (List.mem_filter.mp hb).2
  · intro h
    refine List.filter_eq_self.mpr ?_
    intro b hb
    simp only [decide_eq_true_eq]
    have := h b hb
    omega

/-- C3 witness: register agent 42 at time 0, mark it resolved, and check
5 seconds later: the answer is true. -/
theorem new_res_marks_matches_witness :
    (PingList.check (0 + 5) 42
      (PingList.new_res 42 (PingList.add_new 0 42 []))).1 = true :=
  (new_res_marks_matches 0 5 42 []).2.2.2 (by decide) (by decide)

/-- C4 witness: at time 100 the sweep drops the record sent at time 0 and
keeps the record sent at time 90. -/
theorem clear_outdead_evicts_stale_witness :
    (⟨1, 0, false⟩ : PingedBot) ∉
        PingList.clear_outdead 100 [⟨1, 0, false⟩, ⟨2, 90, false⟩] ∧
      (⟨2, 90, false⟩ : PingedBot) ∈
        PingList.clear_outdead 100 [⟨1, 0, false⟩, ⟨2, 90, false⟩] :=
  ⟨(clear_outdead_evicts_stale 100 [⟨1, 0, false⟩, ⟨2, 90, false⟩]).1
      ⟨1, 0, false⟩ (by decide) (by decide),
    (clear_outdead_evicts_stale 100 [⟨1, 0, false⟩, ⟨2, 90, false⟩]).2.1
      ⟨2, 90, false⟩ (by decide) (by decide)⟩

/-- C5: no registry operation turns a record's `is_response` flag from
true back to false: eviction and the sweep inside `check` only drop whole
records unchanged, `register` appends a fresh record and leaves the rest
alone, and `new_res` is positionally monotone in the flag. -/
theorem resolved_monotonic (now : Int) (telegram_id i : Nat) (reg : Registry) :
    List.Sublist (RegOp.apply (.evict now) reg) reg ∧
    List.Sublist (RegOp.apply (.isResolved now telegram_id) reg) reg ∧
    RegOp.apply (.register now telegram_id) reg =
      reg ++ [PingedBot.new now telegram_id] ∧
    (PingedBot.new now telegram_id).is_response = false ∧
    ((reg.getD i PingedBot.default).is_response = true →
      ((RegOp.apply (.markResolved telegram_id) reg).getD i
          PingedBot.default).is_response = true) := by
  refine ⟨List.filter_sublist reg, List.filter_sublist reg, rfl, rfl, ?_⟩
  intro h
  rw [List.getD_eq_getElem?_getD] at h
  rw [RegOp.apply, PingList.new_res, List.getD_eq_getElem?_getD, List.getElem?_map]
  cases hx : reg[i]? with
  | none => rw [hx] at h; simp [PingedBot.default] at h
  | some b =>
      rw [hx] at h
      simp only [Option.getD_some] at h
      by_cases hb : b.telegram_id = telegram_id <;>
        simp [hb, PingedBot.new_res, h]

/-- C5 witness: marking agent 9 resolved preserves the resolved flag of
the (non-matching) record of agent 5. -/
theorem resolved_monotonic_witness :
    ((RegOp.apply (.markResolved 9) [⟨5, 0, true⟩]).getD 0
        PingedBot.default).is_response = true :=
  (resolved_monotonic 0 9 0 [⟨5, 0, true⟩]).2.2.2.2 (by decide)

/-- C9: `new_res` keeps the registry's length and order, never touches
`telegram_id` or `ping_in` at any position, and leaves every record whose
id differs from the argument byte-for-byte unchanged. -/
theorem new_res_frame (telegram_id i : Nat) (reg : Registry) :
    (PingList.new_res telegram_id reg).length = reg.length ∧
    ((PingList.new_res telegram_id reg).getD i PingedBot.default).telegram_id =
      (reg.getD i PingedBot.default).telegram_id ∧
    ((PingList.new_res telegram_id reg).getD i PingedBot.default).ping_in =
      (reg.getD i PingedBot.default).ping_in ∧
    ((reg.getD i PingedBot.default).telegram_id ≠ telegram_id →
      (PingList.new_res telegram_id reg).getD i PingedBot.default =
        reg.getD i PingedBot.default) := by
  have hget : (PingList.new_res telegram_id reg).getD i PingedBot.default =
      (Option.map
        (fun b => if b.telegram_id == telegram_id then b.new_res else b)
        reg[i]?).getD PingedBot.default := by
    rw [PingList.new_res, List.getD_eq_getElem?_getD, List.getElem?_map]
  rw [hget, List.getD_eq_getElem?_getD]
  refine ⟨List.length_map reg _, ?_⟩
  cases hx : reg[i]? with
  | none => simp
  | some b =>
      refine ⟨?_, ?_, ?_⟩ <;>
        by_cases hb : b.telegram_id = telegram_id <;>
          simp [hb, PingedBot.new_res]

/-- C9 witness: marking agent 3 resolved leaves the record of agent 5
unchanged. -/
theorem new_res_frame_witness :
    (PingList.new_res 3 [⟨5, 7, false⟩]).getD 0 PingedBot.default =
      ([⟨5, 7, false⟩] : Registry).getD 0 PingedBot.default :=
  (new_res_frame 3 0 [⟨5, 7, false⟩]).2.2.2 (by decide)

/-- C6: `send_start` runs resolve, register (a fresh unresolved record
stamped `now`), dispatch, the fixed 2-second sleep, and returns the id, in
that order; a resolution or delivery failure aborts the sequence and
surfaces the error, and in every case at most one dispatch is attempted. -/
theorem send_start_sequence (client : TgClient) (now : Int) (u : String)
    (reg : Registry) (telegram_id : Nat) (e : String) :
    (client.resolve u = .ok (some telegram_id) →
      client.send telegram_id = .ok () →
      send_start client now u reg =
        (.ok telegram_id, reg ++ [⟨telegram_id, now, false⟩],
          [.resolveAttempt u, .registered telegram_id,
            .sendAttempt telegram_id, .slept 2])) ∧
    (client.resolve u = .error e →
      send_start client now u reg = (.error e, reg, [.resolveAttempt u])) ∧
    (client.resolve u = .ok none →
      send_start client now u reg =
        (.error ("Invalid username `" ++ u ++ "`"), reg, [.resolveAttempt u])) ∧
    (client.resolve u = .ok (some telegram_id) →
      client.send telegram_id = .error e →
      send_start client now u reg =
        (.error e, reg ++ [⟨telegram_id, now, false⟩],
          [.resolveAttempt u, .registered telegram_id,
            .sendAttempt telegram_id])) ∧
    (send_start client now u reg).2.2.countP TraceEvent.isSendAttempt ≤ 1 := by
  refine ⟨?_, ?_, ?_, ?_, ?_⟩
  · intro hres hsend
    simp [send_start, hres, hsend, PingList.add_new, PingedBot.new]
  · intro hres
    simp [send_start, hres]
  · intro hres
    simp [send_start, hres]
  · intro hres hsend
    simp [send_start, hres, hsend, PingList.add_new, PingedBot.new]
  · rcases hres : client.resolve u with _ | o
    · simp [send_start, hres, List.countP_cons, List.countP_nil, TraceEvent.isSendAttempt]
    · cases o with
      | none =>
          simp [send_start, hres, List.countP_cons, List.countP_nil,
            TraceEvent.isSendAttempt]
      | some chat_id =>
          rcases hsend : client.send chat_id with _ | _ <;>
            simp [send_start, hres, hsend, List.countP_cons, List.countP_nil,
              TraceEvent.isSendAttempt]

/-- C6 witness: with a client that resolves the handle to id 5 and whose
send succeeds, `send_start` performs the whole sequence and returns 5. -/
theorem send_start_sequence_witness :
    send_start ⟨fun _ => .ok (some 5), fun _ => .ok ()⟩ 0 "testbot" [] =
      (.ok 5, [] ++ [⟨5, 0, false⟩],
        [.resolveAttempt "testbot", .registered 5, .sendAttempt 5, .slept 2]) :=
  (send_start_sequence ⟨fun _ => .ok (some 5), fun _ => .ok ()⟩ 0 "testbot" []
      5 "e").1 rfl rfl

/-- C1: a requested handle matching no configured allow-list entry (each
entry compared after stripping leading `@`s, trimming and lowercasing,
against the lowercased request) gets the 400 Unauthorized/Unknown-target
response, `send_start` is never invoked (the event trace is empty, so in
particular no dispatch is attempted) and the registry is unchanged. -/
theorem unauthorized_target_rejected (hash : String → String)
    (botsCfg tokensCfg : List String) (client : TgClient) (now : Int)
    (param : String) (reg : Registry)
    (h : ∀ b ∈ botsCfg, lower (trimStr (stripAt b)) ≠ lower param) :
    ping (AppState.new hash botsCfg tokensCfg) client now param reg =
      ((MessageSchema.new
          "Is not authorized to check the status of this bot").code 400,
        reg, []) ∧
    (ping (AppState.new hash botsCfg tokensCfg) client now param reg).2.2.countP
        TraceEvent.isSendAttempt = 0 := by
  have hmem : lower param ∉ (AppState.new hash botsCfg tokensCfg).bots := by
    intro hmem
    simp only [AppState.new, List.mem_map] at hmem
    obtain ⟨b, hb, hbeq⟩ := hmem
    exact h b hb hbeq
  constructor
  · simp [ping, hmem]
  · simp [ping, hmem]

/-- C1 witness: with `@testbot` the only configured bot, the query for
`unknownbot` is rejected with 400, touching neither client nor registry. -/
theorem unauthorized_target_rejected_witness :
    ping (AppState.new (fun s => s) ["@testbot"] [])
        ⟨fun _ => .ok (some 5), fun _ => .ok ()⟩ 0 "unknownbot" [] =
      ((MessageSchema.new
          "Is not authorized to check the status of this bot").code 400,
        [], []) :=
  (unauthorized_target_rejected (fun s => s) ["@testbot"] []
      ⟨fun _ => .ok (some 5), fun _ => .ok ()⟩ 0 "unknownbot" [] (by decide)).1

/-- C7 counterexample: for the allow-listed handle `testbot` whose
resolution fails (`resolve_username` finds no chat), the query does answer
500 Unreachable, but the registry afterwards is empty — no registry record
for that probe exists, contradicting the claim that one is created. -/
theorem resolution_failure_no_record :
    (ping (AppState.new (fun s => s) ["@testbot"] [])
        ⟨fun _ => .ok none, fun _ => .ok ()⟩ 0 "testbot" []).1.status_code =
      500 ∧
    (ping (AppState.new (fun s => s) ["@testbot"] [])
        ⟨fun _ => .ok none, fun _ => .ok ()⟩ 0 "testbot" []).2.1 = [] := by
  constructor <;> decide

/-- C7 amended: on an allow-listed handle, a resolution failure (error or
unknown username) returns the Unreachable 500 outcome with the registry
unchanged — no record is created at all — while a delivery failure after
successful resolution returns 500 leaving exactly the fresh unresolved
record, which any eviction sweep more than 60 seconds later removes. -/
theorem unreachable_aborts_cleanly (state : AppState) (client : TgClient)
    (now t : Int) (param : String) (reg : Registry) (telegram_id : Nat)
    (e : String) :
    (state.bots.contains (lower param) = true →
      client.resolve (lower param) = .error e →
      (ping state client now param reg).1 =
          (MessageSchema.new "Cant send to the bot").code 500 ∧
        (ping state client now param reg).2.1 = reg) ∧
    (state.bots.contains (lower param) = true →
      client.resolve (lower param) = .ok none →
      (ping state client now param reg).1 =
          (MessageSchema.new "Cant send to the bot").code 500 ∧
        (ping state client now param reg).2.1 = reg) ∧
    (state.bots.contains (lower param) = true →
      client.resolve (lower param) = .ok (some telegram_id) →
      client.send telegram_id = .error e →
      (ping state client now param reg).1 =
          (MessageSchema.new "Cant send to the bot").code 500 ∧
        (ping state client now param reg).2.1 =
          reg ++ [⟨telegram_id, now, false⟩] ∧
        (60 < t - now →
          (⟨telegram_id, now, false⟩ : PingedBot) ∉
            PingList.clear_outdead t
              ((ping state client now param reg).2.1))) := by
  refine ⟨?_, ?_, ?_⟩
  · intro hc hres
    have hm : lower param ∈ state.bots := by simpa using hc
    constructor <;> simp [ping, hm, send_start, hres]
  · intro hc hres
    have hm : lower param ∈ state.bots := by simpa using hc
    constructor <;> simp [ping, hm, send_start, hres]
  · intro hc hres hsend
    have hm : lower param ∈ state.bots := by simpa using hc
    refine ⟨?_, ?_, ?_⟩
    · simp [ping, hm, send_start, hres, hsend]
    · simp [ping, hm, send_start, hres, hsend, PingList.add_new, PingedBot.new]
    · intro ht hmem
      have := (List.mem_filter.mp hmem).2
      simp only [decide_eq_true_eq] at this
      omega

/-- C7 amended witness: resolution failure for `testbot` answers 500 and
leaves the empty registry empty. -/
theorem unreachable_aborts_cleanly_witness :
    (ping (AppState.new (fun s => s) ["@testbot"] [])
        ⟨fun _ => .error "net down", fun _ => .ok ()⟩ 0 "testbot" []).1 =
        (MessageSchema.new "Cant send to the bot").code 500 ∧
      (ping (AppState.new (fun s => s) ["@testbot"] [])
          ⟨fun _ => .error "net down", fun _ => .ok ()⟩ 0 "testbot" []).2.1 =
        [] :=
  (unreachable_aborts_cleanly (AppState.new (fun s => s) ["@testbot"] [])
      ⟨fun _ => .error "net down", fun _ => .ok ()⟩ 0 100 "testbot" [] 0
      "net down").1 (by decide) rfl

/-- C8: each query yields exactly one `{message, status}` response with
the specified status mapping — 400 for an unauthorized target, 200 Alive
when the probed bot responded, 404 when it did not, 500 when the probe
could not be resolved or delivered; the auth middleware answers 403 for a
missing header or failed token and 400 for a malformed header value, and
passes an authorized token through. -/
theorem response_status_mapping (hash : String → String) (state : AppState)
    (client : TgClient) (now : Int) (param tok e : String) (reg reg1 : Registry)
    (telegram_id : Nat) (evs : List TraceEvent) :
    (lower param ∉ state.bots →
      (ping state client now param reg).1 =
        (MessageSchema.new
            "Is not authorized to check the status of this bot").code 400) ∧
    (lower param ∈ state.bots →
      send_start client now (lower param) reg = (.ok telegram_id, reg1, evs) →
      ((PingList.check (now + 2) telegram_id reg1).1 = true →
        (ping state client now param reg).1 = MessageSchema.new "Alive") ∧
      ((PingList.check (now + 2) telegram_id reg1).1 = false →
        (ping state client now param reg).1 =
          (MessageSchema.new "No response from the bot").code 404)) ∧
    (lower param ∈ state.bots →
      send_start client now (lower param) reg = (.error e, reg1, evs) →
      (ping state client now param reg).1 =
        (MessageSchema.new "Cant send to the bot").code 500) ∧
    (MessageSchema.new "Alive").status_code = 200 ∧
    auth hash state none =
      .rejected ((MessageSchema.new "Missing `Authorization` header").code 403) ∧
    auth hash state (some none) =
      .rejected ((MessageSchema.new "Invalid token value").code 400) ∧
    (state.tokens.contains (hash (trimStr tok)) = false →
      auth hash state (some (some tok)) =
        .rejected ((MessageSchema.new "Unauthorized").code 403)) ∧
    (state.tokens.contains (hash (trimStr tok)) = true →
      auth hash state (some (some tok)) = .authorized) := by
  refine ⟨?_, ?_, ?_, rfl, rfl, rfl, ?_, ?_⟩
  · intro hmem
    simp [ping, hmem]
  · intro hmem hsend
    constructor <;> intro hchk <;> simp [ping, hmem, hsend, hchk]
  · intro hmem hsend
    simp [ping, hmem, hsend]
  · intro htok
    have hm : hash (trimStr tok) ∉ state.tokens := by simpa using htok
    simp [auth, hm]
  · intro htok
    have hm : hash (trimStr tok) ∈ state.tokens := by simpa using htok
    simp [auth, hm]

/-- C8 witness: a live bot answers 200 Alive, and a missing
`Authorization` header is rejected with 403. -/
theorem response_status_mapping_witness :
    (ping (AppState.new (fun s => s) ["@testbot"] [])
        ⟨fun _ => .ok (some 5), fun _ => .ok ()⟩ 0 "testbot"
        [⟨5, 0, true⟩]).1 = MessageSchema.new "Alive" ∧
    auth (fun s => s) (AppState.new (fun s => s) ["@testbot"] []) none =
      .rejected
        ((MessageSchema.new "Missing `Authorization` header").code 403) := by
  have h := response_status_mapping (fun s => s)
    (AppState.new (fun s => s) ["@testbot"] [])
    ⟨fun _ => .ok (some 5), fun _ => .ok ()⟩ 0 "testbot" "tok" "e"
    [⟨5, 0, true⟩] (PingList.add_new 0 5 [⟨5, 0, true⟩]) 5
    [.resolveAttempt (lower "testbot"), .registered 5, .sendAttempt 5, .slept 2]
  exact ⟨(h.2.1 (by decide) rfl).1 (by decide), h.2.2.2.2.1⟩

/-- C10: every response body the service builds carries `status` equal to
the success bit of its HTTP status code: both `MessageSchema`
constructors maintain the equality, and so do all responses of the `ping`
handler, the `auth` middleware and the two catch-all handlers. -/
theorem status_iff_success (m : String) (s msg : MessageSchema) (c : Nat)
    (hash : String → String) (state : AppState) (client : TgClient)
    (now : Int) (param : String) (reg : Registry)
    (header : Option (Option String)) :
    (MessageSchema.new m).status =
      isSuccess (MessageSchema.new m).status_code ∧
    (s.code c).status = isSuccess (s.code c).status_code ∧
    (ping state client now param reg).1.status =
      isSuccess (ping state client now param reg).1.status_code ∧
    (auth hash state header = .rejected msg →
      msg.status = isSuccess msg.status_code) ∧
    handle404.status = isSuccess handle404.status_code ∧
    handle_server_errors.status = isSuccess handle_server_errors.status_code := by
  refine ⟨rfl, rfl, ?_, ?_, rfl, rfl⟩
  · rw [ping]
    split
    · rcases hsend : send_start client now (lower param) reg with ⟨r, reg1, evs⟩
      cases r with
      | ok telegram_id =>
          by_cases hchk : (PingList.check (now + 2) telegram_id reg1).1 = true <;>
            simp [hsend, hchk, MessageSchema.new, MessageSchema.code, isSuccess]
      | error e =>
          simp [hsend, MessageSchema.new, MessageSchema.code, isSuccess]
    · rfl
  · intro h
    cases header with
    | none =>
        simp only [auth, AuthOutcome.rejected.injEq] at h
        subst h; rfl
    | some o =>
        cases o with
        | none =>
            simp only [auth, AuthOutcome.rejected.injEq] at h
            subst h; rfl
        | some tok =>
            by_cases htok : hash (trimStr tok) ∈ state.tokens
            · simp [auth, htok] at h
            · simp only [auth] at h
              rw [if_neg (by simpa using htok)] at h
              rw [AuthOutcome.rejected.injEq] at h
              subst h; rfl

/-- C10 witness: the rejection for a missing `Authorization` header has
`status` false, matching its non-2xx code 403. -/
theorem status_iff_success_witness :
    ((MessageSchema.new "Missing `Authorization` header").code 403).status =
      isSuccess
        ((MessageSchema.new "Missing `Authorization` header").code
            403).status_code :=
  (status_iff_success "m" (MessageSchema.new "m")
      ((MessageSchema.new "Missing `Authorization` header").code 403) 200
      (fun s => s) (AppState.new (fun s => s) [] [])
      ⟨fun _ => .ok none, fun _ => .ok ()⟩ 0 "x" [] none).2.2.2.1 rfl

end Telepingbot
